import Mathlib

/-!
Shallow embedding of the WhatTheFlip frontend client
(src/frontend/src/App.tsx): the component state, the catalog loader
(`fetchFlippFlyers`), the three-stage processing orchestrator
(`handleFlyerSelection`) and the render projections, together with
theorems settling the specification claims about them.

Network effects are made explicit: each remote call takes its response
from an `Env` value, and a run of the handler is recorded as a list of
`Event`s (state-setter calls and issued requests, in program order); the
resulting component state is the fold of those events over the initial
state.  This matches the source because within one invocation the
handler only reads state captured at entry (the React closure), never
state it has just set.
-/

/-- A flyer from the Flipp catalog API (interface `FlippFlyer`). -/
structure FlippFlyer where
  id : Int
  merchant : String
  flyer_run_id : Int
  thumbnail_url : String
  categories : List String
  deriving Repr, DecidableEq

/-- Meal plan payload (interface `MealPlan`): ordered day-to-meal
entries (`Object.entries` order of `meal_plan`) and the shopping list. -/
structure MealPlan where
  meal_plan : List (String × String)
  shopping_list : List String
  deriving Repr, DecidableEq

/-- Response body of `/api/flyer/fetch-and-store/`
(interface `FetchedFlyerInfo`). -/
structure FetchedFlyerInfo where
  flipp_flyer_id : Int
  merchant_name : String
  image_path : String
  postal_code : String
  message : String
  deriving Repr, DecidableEq

/-- The component state of `App` (the `useState` hooks, in source order). -/
structure AppState where
  groceryFlyers : List FlippFlyer
  isFetchingFlipp : Bool
  flippError : Option String
  mealPlan : Option MealPlan
  isProcessing : Bool
  processingError : Option String
  processingMessage : Option String
  selectedFlyerId : Option Int
  selectedFlyer : Option FlippFlyer
  deriving Repr, DecidableEq

/-- A network request issued by the handler, with the payload fields the
source sends. -/
inductive Request where
  | fetchAndStore (merchant_name postal_code : String)
  | extract (store_name image_path : String)
  | generate (store_name : String)
  deriving Repr, DecidableEq

/-- One observable effect of a handler invocation: a state-setter call or
an issued network request, in program order. -/
inductive Event where
  | setProcessingError (v : Option String)
  | setProcessingMessage (v : Option String)
  | setIsProcessing (v : Bool)
  | setMealPlan (v : Option MealPlan)
  | setSelectedFlyerId (v : Option Int)
  | setSelectedFlyer (v : Option FlippFlyer)
  | netRequest (r : Request)
  deriving Repr, DecidableEq

/-- Outcome of one remote call.  `ok body` is a 2xx response whose body
parsed; `httpError` is a non-2xx response (`jsonOk` says whether the
error body parsed, `detail`/`message` its optional fields, `none`
standing for an absent field); `thrown` is a rejection reaching the
outer catch (the fetch itself rejecting, or a 2xx body failing to
parse), carrying the `Error`s message, or `none` for a non-`Error`
throw. -/
inductive StageResult (α : Type) where
  | ok (body : α)
  | httpError (status : Nat) (jsonOk : Bool) (detail message_ : Option String)
  | thrown (errMsg : Option String)
  deriving Repr, DecidableEq

/-- The environment of one handler invocation: the responses the three
endpoints would give if called. -/
structure Env where
  stage1 : StageResult FetchedFlyerInfo
  stage2 : StageResult String
  stage3 : StageResult MealPlan
  deriving Repr, DecidableEq

/-- JavaScript `x || y` on an optional string: an absent or empty string
is falsy. -/
def jsOr (x : Option String) (y : String) : String :=
  match x with
  | some s => if s = "" then y else s
  | none => y

/-- The `errorData` object after `response.json().catch(...)` on a
non-2xx response: the parsed body when parsing succeeds, else the
fallback object `\x7b message: fallbackMsg \x7d`. -/
def errorDataFields (jsonOk : Bool) (detail message_ : Option String)
    (fallbackMsg : String) : Option String × Option String :=
  if jsonOk then (detail, message_) else (none, some fallbackMsg)

/-- Message of the error thrown for a non-2xx `fetch-and-store` response:
`errorData.detail || errorData.message || generic` (App.tsx lines 142-145). -/
def fetchStoreErrMsg (status : Nat) (jsonOk : Bool)
    (detail message_ : Option String) : String :=
  let ed := errorDataFields jsonOk detail message_
    ("Fetching flyer failed with status: " ++ toString status)
  jsOr ed.1 (jsOr ed.2 ("Failed to fetch or store flyer. Status: " ++ toString status))

/-- Message of the error thrown for a non-2xx `extract` response:
`errorData.detail || errorData.message || generic` (App.tsx lines 162-165). -/
def extractErrMsg (status : Nat) (jsonOk : Bool)
    (detail message_ : Option String) : String :=
  let ed := errorDataFields jsonOk detail message_
    ("Extraction failed with status: " ++ toString status)
  jsOr ed.1 (jsOr ed.2 ("Failed to extract items. Status: " ++ toString status))

/-- Message of the error thrown for a non-2xx `mealplan/generate`
response: `errorData.message || generic` — the source does not consult
`errorData.detail` here (App.tsx lines 183-186). -/
def generateErrMsg (status : Nat) (jsonOk : Bool)
    (detail message_ : Option String) : String :=
  let ed := errorDataFields jsonOk detail message_
    ("Meal plan generation failed with status: " ++ toString status)
  jsOr ed.2 ("Failed to generate meal plan. Status: " ++ toString status)

/-- The `catch` clause: `err instanceof Error ? err.message : ...`
(App.tsx line 195). -/
def caughtErrorText (errMsg : Option String) : String :=
  match errMsg with
  | some m => m
  | none => "An unknown error occurred."

/-- Effects of the `try` block of `handleFlyerSelection` (App.tsx lines
127-198), given the selected flyer and the environment; includes the
`catch` clause effect when a stage throws, but not the `finally`. -/
def tryBlockTrace (currentFlyer : FlippFlyer) (env : Env) : List Event :=
  Event.setProcessingMessage
      (some ("Fetching and preparing flyer for " ++ currentFlyer.merchant ++ "...")) ::
  Event.netRequest (Request.fetchAndStore currentFlyer.merchant "V1P0A1") ::
  match env.stage1 with
  | StageResult.httpError status jsonOk detail message_ =>
    [Event.setProcessingError (some (fetchStoreErrMsg status jsonOk detail message_))]
  | StageResult.thrown e => [Event.setProcessingError (some (caughtErrorText e))]
  | StageResult.ok info =>
    Event.setProcessingMessage
        (some ("Flyer ready. Extracting items from " ++ currentFlyer.merchant ++ " flyer...")) ::
    Event.netRequest (Request.extract currentFlyer.merchant info.image_path) ::
    match env.stage2 with
    | StageResult.httpError status jsonOk detail message_ =>
      [Event.setProcessingError (some (extractErrMsg status jsonOk detail message_))]
    | StageResult.thrown e => [Event.setProcessingError (some (caughtErrorText e))]
    | StageResult.ok _ =>
      Event.setProcessingMessage
          (some ("Items extracted. Generating meal plan for " ++ currentFlyer.merchant ++ "...")) ::
      Event.netRequest (Request.generate currentFlyer.merchant) ::
      match env.stage3 with
      | StageResult.httpError status jsonOk detail message_ =>
        [Event.setProcessingError (some (generateErrMsg status jsonOk detail message_))]
      | StageResult.thrown e => [Event.setProcessingError (some (caughtErrorText e))]
      | StageResult.ok plan =>
        [Event.setMealPlan (some plan),
         Event.setProcessingMessage (some "Meal plan complete!")]

/-- Effects of one invocation of `handleFlyerSelection` (App.tsx lines
101-199): guard clauses, then the initial setters, the `try` block and
the `finally`. -/
def selectionTrace (s : AppState) (flyerId : Option Int) (env : Env) : List Event :=
  match flyerId with
  | none => [Event.setProcessingError (some "Invalid flyer ID provided.")]
  | some fid =>
    match s.groceryFlyers.find? (fun f => f.id == fid) with
    | none => [Event.setProcessingError (some "Selected flyer not found in the list.")]
    | some currentFlyer =>
      if s.isProcessing && s.selectedFlyerId == some fid then []
      else
        Event.setProcessingError none ::
        Event.setProcessingMessage (some "Starting flyer processing...") ::
        Event.setIsProcessing true ::
        Event.setMealPlan none ::
        Event.setSelectedFlyerId (some fid) ::
        Event.setSelectedFlyer (some currentFlyer) ::
        (tryBlockTrace currentFlyer env ++ [Event.setIsProcessing false])

/-- Committing one effect to the component state. -/
def applyEvent (s : AppState) : Event → AppState
  | Event.setProcessingError v => { s with processingError := v }
  | Event.setProcessingMessage v => { s with processingMessage := v }
  | Event.setIsProcessing v => { s with isProcessing := v }
  | Event.setMealPlan v => { s with mealPlan := v }
  | Event.setSelectedFlyerId v => { s with selectedFlyerId := v }
  | Event.setSelectedFlyer v => { s with selectedFlyer := v }
  | Event.netRequest _ => s

/-- Folding a list of effects over a state. -/
def runEvents (s : AppState) (es : List Event) : AppState :=
  es.foldl applyEvent s

/-- The component state after one invocation of `handleFlyerSelection`. -/
def handleFlyerSelection (s : AppState) (flyerId : Option Int) (env : Env) : AppState :=
  runEvents s (selectionTrace s flyerId env)

/-- A click on a flyer card (App.tsx line 223):
`!isProcessing ? handleFlyerSelection(flyer.id) : undefined`. -/
def flyerCardClickTrace (s : AppState) (fid : Int) (env : Env) : List Event :=
  if s.isProcessing then [] else selectionTrace s (some fid) env

/-- The component state after a click on a flyer card. -/
def flyerCardClick (s : AppState) (fid : Int) (env : Env) : AppState :=
  runEvents s (flyerCardClickTrace s fid env)

/-- The network requests among a list of effects, in order. -/
def requestsOf (es : List Event) : List Request :=
  es.filterMap (fun e => match e with
    | Event.netRequest r => some r
    | _ => none)

/-- The status messages stored by a list of effects, in order
(`setProcessingMessage` with a non-null value). -/
def messagesOf (es : List Event) : List String :=
  es.filterMap (fun e => match e with
    | Event.setProcessingMessage (some m) => some m
    | _ => none)

/-- The error messages stored by a list of effects, in order
(`setProcessingError` with a non-null value). -/
def errorsStoredBy (es : List Event) : List String :=
  es.filterMap (fun e => match e with
    | Event.setProcessingError (some m) => some m
    | _ => none)

/-- Whether an effect is a network request. -/
def Event.isNetRequest : Event → Bool
  | Event.netRequest _ => true
  | _ => false

/-- Outcome of the one catalog request issued on mount: a 2xx response
with a parsed flyer list, a non-2xx response (which the source turns
into a thrown `Error`), or a rejection (the `Error`s message, `none`
for a non-`Error` throw). -/
inductive CatalogResult where
  | ok (flyers : List FlippFlyer)
  | httpError (status : Nat)
  | thrown (errMsg : Option String)
  deriving Repr, DecidableEq

/-- `m.toLowerCase().includes("failed to fetch")`: the pattern occurs in
the lowercased string iff splitting on it yields more than one piece. -/
def mentionsFailedToFetch (m : String) : Bool :=
  (m.toLower.splitOn "failed to fetch").length != 1

/-- The special-cased cross-origin failure message. -/
def corsHint : String :=
  "Failed to fetch flyers. This might be a CORS issue. Consider using a backend proxy."

/-- The component state after the mount-time catalog load
(`fetchFlippFlyers`, App.tsx lines 57-95), given the response. -/
def fetchFlippFlyers (s : AppState) (res : CatalogResult) : AppState :=
  let s := { s with isFetchingFlipp := true, flippError := none }
  let s : AppState :=
    match res with
    | CatalogResult.ok flyers =>
      let filteredFlyers := flyers.filter (fun flyer => flyer.categories.contains "Groceries")
      let s := { s with groceryFlyers := filteredFlyers }
      if filteredFlyers.length = 0 then
        { s with flippError := some "No grocery flyers found for this postal code." }
      else s
    | CatalogResult.httpError status =>
      let msg := "HTTP error! status: " ++ toString status
      let s := { s with flippError := some msg }
      if mentionsFailedToFetch msg then { s with flippError := some corsHint }
      else s
    | CatalogResult.thrown errMsg =>
      let caught :=
        match errMsg with
        | some m => m
        | none => "An unknown error occurred while fetching flyers"
      let s := { s with flippError := some caught }
      match errMsg with
      | some m =>
        if mentionsFailedToFetch m then { s with flippError := some corsHint }
        else s
      | none => s
  { s with isFetchingFlipp := false }

/-- JavaScript truthiness of a nullable string: absent or empty is falsy. -/
def jsTruthyStr : Option String → Bool
  | some m => !(m == "")
  | none => false

/-- Whether the flyer grid is rendered (App.tsx line 215):
`!isFetchingFlipp && !flippError && groceryFlyers.length > 0`. -/
def flyerGridRendered (s : AppState) : Bool :=
  !s.isFetchingFlipp && !jsTruthyStr s.flippError && !s.groceryFlyers.isEmpty

/-- The flyers shown as cards: `groceryFlyers.map(...)` when the grid is
rendered, nothing otherwise. -/
def flyerGridFlyers (s : AppState) : List FlippFlyer :=
  if flyerGridRendered s then s.groceryFlyers else []

/-- Whether the catalog error banner is rendered (App.tsx line 213):
`flippError && <div>...`. -/
def flippErrorBannerShown (s : AppState) : Bool :=
  jsTruthyStr s.flippError

/-- Whether the processing error banner is rendered (App.tsx line 244):
`processingError && <div>...`. -/
def processingErrorBannerShown (s : AppState) : Bool :=
  jsTruthyStr s.processingError

/-- Whether the meal-plan panel is rendered (App.tsx line 251):
`mealPlan && selectedFlyer && ...`. -/
def mealPlanPanelShown (s : AppState) : Bool :=
  s.mealPlan.isSome && s.selectedFlyer.isSome

/-- The day rows of the rendered meal-plan panel
(`Object.entries(mealPlan.meal_plan).map(...)`, App.tsx lines 257-262). -/
def mealPlanDayRows (s : AppState) : List (String × String) :=
  match s.mealPlan, s.selectedFlyer with
  | some mp, some _ => mp.meal_plan
  | _, _ => []

/-- The shopping-list rows of the rendered meal-plan panel
(`mealPlan.shopping_list.map(...)`, App.tsx lines 268-270). -/
def shoppingListRows (s : AppState) : List String :=
  match s.mealPlan, s.selectedFlyer with
  | some mp, some _ => mp.shopping_list
  | _, _ => []

/-- The three stage-specific status messages for a merchant, in pipeline
order. -/
def stageMessages (merchant : String) : List String :=
  ["Fetching and preparing flyer for " ++ merchant ++ "...",
   "Flyer ready. Extracting items from " ++ merchant ++ " flyer...",
   "Items extracted. Generating meal plan for " ++ merchant ++ "..."]

/-- Projection of an effect list onto network requests and stage-specific
status-message stores, keeping their interleaving order. -/
def stageEvents (merchant : String) (es : List Event) : List Event :=
  es.filter (fun e => match e with
    | Event.netRequest _ => true
    | Event.setProcessingMessage (some m) => (stageMessages merchant).contains m
    | _ => false)

lemma jsOr_ne_empty (x : Option String) (y : String) (hy : y ≠ "") :
    jsOr x y ≠ "" := by
  cases x with
  | none => simpa [jsOr] using hy
  | some s =>
    by_cases h : s = "" <;> simp [jsOr, h, hy]

/-- Unfolding of `selectionTrace` once the three guards let the pipeline
proceed. -/
lemma selectionTrace_proceed (s : AppState) (fid : Int) (f : FlippFlyer) (env : Env)
    (hf : s.groceryFlyers.find? (fun fl => fl.id == fid) = some f)
    (hg : (s.isProcessing && s.selectedFlyerId == some fid) = false) :
    selectionTrace s (some fid) env =
      Event.setProcessingError none ::
      Event.setProcessingMessage (some "Starting flyer processing...") ::
      Event.setIsProcessing true ::
      Event.setMealPlan none ::
      Event.setSelectedFlyerId (some fid) ::
      Event.setSelectedFlyer (some f) ::
      (tryBlockTrace f env ++ [Event.setIsProcessing false]) := by
  simp [selectionTrace, hf, hg]

/- Concrete fixtures used by the witnesses and counterexamples. -/

def flyerA : FlippFlyer :=
  { id := 1, merchant := "StoreA", flyer_run_id := 10,
    thumbnail_url := "thumbA.png", categories := ["Groceries"] }

def flyerB : FlippFlyer :=
  { id := 2, merchant := "StoreB", flyer_run_id := 20,
    thumbnail_url := "thumbB.png", categories := ["Groceries", "Pets"] }

def petFlyer : FlippFlyer :=
  { id := 3, merchant := "StoreC", flyer_run_id := 30,
    thumbnail_url := "thumbC.png", categories := ["Pets"] }

/-- An idle state with two grocery flyers loaded and nothing in flight. -/
def idleState : AppState :=
  { groceryFlyers := [flyerA, flyerB], isFetchingFlipp := false,
    flippError := none, mealPlan := none, isProcessing := false,
    processingError := none, processingMessage := none,
    selectedFlyerId := none, selectedFlyer := none }

/-- A state in which a session for `flyerA` is in flight. -/
def busyState : AppState :=
  { idleState with
    isProcessing := true,
    processingMessage := some "Starting flyer processing...",
    selectedFlyerId := some 1, selectedFlyer := some flyerA }

/-- A five-day meal plan with a two-item shopping list. -/
def planFive : MealPlan :=
  { meal_plan := [("Monday", "Pasta"), ("Tuesday", "Tacos"), ("Wednesday", "Soup"),
      ("Thursday", "Curry"), ("Friday", "Pizza")],
    shopping_list := ["Milk", "Eggs"] }

def infoA : FetchedFlyerInfo :=
  { flipp_flyer_id := 1, merchant_name := "StoreA", image_path := "x.jpg",
    postal_code := "V1P0A1", message := "stored" }

/-- All three stages succeed. -/
def envAllOk : Env :=
  { stage1 := StageResult.ok infoA, stage2 := StageResult.ok "ok",
    stage3 := StageResult.ok planFive }

/-- Stage 1 answers non-2xx (parsed body with both `detail` and `message`). -/
def envFail1 : Env :=
  { envAllOk with stage1 := StageResult.httpError 500 true (some "D1") (some "M1") }

/-- Stage 2 answers non-2xx. -/
def envFail2 : Env :=
  { envAllOk with stage2 := StageResult.httpError 404 true (some "D2") (some "M2") }

/-- Stage 3 answers non-2xx with both `detail` and `message` present. -/
def envFail3 : Env :=
  { envAllOk with stage3 := StageResult.httpError 500 true (some "D3") (some "M3") }

lemma str_append_ne_empty (a b : String) (h : a ≠ "") : a ++ b ≠ "" := by
  intro hc
  apply h
  have hd := congrArg String.data hc
  rw [String.data_append] at hd
  have ha : a.data = [] := (List.append_eq_nil.mp hd).1
  exact String.ext (by simpa using ha)

lemma fetchStoreErrMsg_ne_empty (st : Nat) (j : Bool) (d m : Option String) :
    fetchStoreErrMsg st j d m ≠ "" := by
  unfold fetchStoreErrMsg
  exact jsOr_ne_empty _ _ (jsOr_ne_empty _ _ (str_append_ne_empty _ _ (by decide)))

lemma extractErrMsg_ne_empty (st : Nat) (j : Bool) (d m : Option String) :
    extractErrMsg st j d m ≠ "" := by
  unfold extractErrMsg
  exact jsOr_ne_empty _ _ (jsOr_ne_empty _ _ (str_append_ne_empty _ _ (by decide)))

lemma generateErrMsg_ne_empty (st : Nat) (j : Bool) (d m : Option String) :
    generateErrMsg st j d m ≠ "" := by
  unfold generateErrMsg
  exact jsOr_ne_empty _ _ (str_append_ne_empty _ _ (by decide))

/-- C1: while a session is in flight (`isProcessing` true), a click on
any flyer card is ignored: the state is unchanged — so no new session
starts and nothing of the in-flight session is overwritten — and no
network request is issued, whether or not the clicked id equals the
in-flight one. -/
theorem C1_click_while_processing_ignored (s : AppState) (fid : Int) (env : Env)
    (h : s.isProcessing = true) :
    flyerCardClick s fid env = s ∧
      requestsOf (flyerCardClickTrace s fid env) = [] := by
  simp [flyerCardClick, flyerCardClickTrace, h, runEvents, requestsOf]

/-- Witness for C1 at a concrete busy state, clicking a flyer whose id
differs from the in-flight one. -/
theorem C1_click_while_processing_ignored_witness :
    busyState.isProcessing = true ∧
      (flyerCardClick busyState 2 envAllOk = busyState ∧
        requestsOf (flyerCardClickTrace busyState 2 envAllOk) = []) :=
  ⟨rfl, C1_click_while_processing_ignored busyState 2 envAllOk rfl⟩

/-- C6: invoking the selection handler again with the id of the flyer
whose session is in flight is a no-op: the state is unchanged and no
network request is issued. -/
theorem C6_reselect_in_flight_noop (s : AppState) (fid : Int) (f : FlippFlyer) (env : Env)
    (hf : s.groceryFlyers.find? (fun fl => fl.id == fid) = some f)
    (hp : s.isProcessing = true) (hsel : s.selectedFlyerId = some fid) :
    handleFlyerSelection s (some fid) env = s ∧
      requestsOf (selectionTrace s (some fid) env) = [] := by
  have ht : selectionTrace s (some fid) env = [] := by
    simp [selectionTrace, hf, hp, hsel]
  simp [handleFlyerSelection, ht, runEvents, requestsOf]

/-- Witness for C6: re-selecting `flyerA` while its session is in flight. -/
theorem C6_reselect_in_flight_noop_witness :
    busyState.groceryFlyers.find? (fun fl => fl.id == 1) = some flyerA ∧
      busyState.isProcessing = true ∧ busyState.selectedFlyerId = some 1 ∧
      (handleFlyerSelection busyState (some 1) envAllOk = busyState ∧
        requestsOf (selectionTrace busyState (some 1) envAllOk) = []) :=
  ⟨by decide, by decide, by decide,
    C6_reselect_in_flight_noop busyState 1 flyerA envAllOk (by decide) (by decide) (by decide)⟩

/-- C10: a selection with a null id, or with an id absent from the
grocery flyer list, only stores a processing error message: every other
state field is unchanged and no network request is issued. -/
theorem C10_rejected_selection_frame (s : AppState) (env : Env) :
    (handleFlyerSelection s none env =
        { s with processingError := some "Invalid flyer ID provided." } ∧
      requestsOf (selectionTrace s none env) = []) ∧
    ∀ fid, s.groceryFlyers.find? (fun fl => fl.id == fid) = none →
      handleFlyerSelection s (some fid) env =
          { s with processingError := some "Selected flyer not found in the list." } ∧
        requestsOf (selectionTrace s (some fid) env) = [] := by
  refine ⟨⟨?_, ?_⟩, ?_⟩
  · simp [handleFlyerSelection, selectionTrace, runEvents, applyEvent]
  · simp [selectionTrace, requestsOf]
  · intro fid hf
    refine ⟨?_, ?_⟩
    · simp [handleFlyerSelection, selectionTrace, hf, runEvents, applyEvent]
    · simp [selectionTrace, hf, requestsOf]

/-- Witness for C10 at a concrete state: a null selection, and a
selection of the unknown id 99. -/
theorem C10_rejected_selection_frame_witness :
    (handleFlyerSelection idleState none envAllOk =
        { idleState with processingError := some "Invalid flyer ID provided." } ∧
      requestsOf (selectionTrace idleState none envAllOk) = []) ∧
    idleState.groceryFlyers.find? (fun fl => fl.id == 99) = none ∧
    (handleFlyerSelection idleState (some 99) envAllOk =
        { idleState with processingError := some "Selected flyer not found in the list." } ∧
      requestsOf (selectionTrace idleState (some 99) envAllOk) = []) :=
  ⟨(C10_rejected_selection_frame idleState envAllOk).1, by decide,
    (C10_rejected_selection_frame idleState envAllOk).2 99 (by decide)⟩

/-- `selectionTrace` always issues the fetch-and-store request once the
guards let the pipeline proceed. -/
lemma selection_requests_head (s : AppState) (fid : Int) (f : FlippFlyer) (env : Env)
    (hf : s.groceryFlyers.find? (fun fl => fl.id == fid) = some f)
    (hg : (s.isProcessing && s.selectedFlyerId == some fid) = false) :
    Request.fetchAndStore f.merchant "V1P0A1" ∈
      requestsOf (selectionTrace s (some fid) env) := by
  rw [selectionTrace_proceed s fid f env hf hg]
  rcases env with ⟨s1, s2, s3⟩
  cases s1 <;> cases s2 <;> cases s3 <;> simp [tryBlockTrace, requestsOf]

/-- The `finally` clause leaves `isProcessing` false whatever the three
stages did. -/
lemma handleFlyerSelection_clears_isProcessing (s : AppState) (fid : Int) (f : FlippFlyer)
    (env : Env)
    (hf : s.groceryFlyers.find? (fun fl => fl.id == fid) = some f)
    (hg : (s.isProcessing && s.selectedFlyerId == some fid) = false) :
    (handleFlyerSelection s (some fid) env).isProcessing = false := by
  rw [handleFlyerSelection, selectionTrace_proceed s fid f env hf hg]
  rcases env with ⟨s1, s2, s3⟩
  cases s1 <;> cases s2 <;> cases s3 <;>
    simp [tryBlockTrace, runEvents, applyEvent]

/-- C2: a non-2xx response at any stage stops the pipeline there — no
later request is issued — leaves the meal plan null, and stores exactly
one error message, which the error banner then shows. -/
theorem C2_non2xx_halts_pipeline (s : AppState) (fid : Int) (f : FlippFlyer) (env : Env)
    (hf : s.groceryFlyers.find? (fun fl => fl.id == fid) = some f)
    (hg : (s.isProcessing && s.selectedFlyerId == some fid) = false) :
    (∀ st j d m, env.stage1 = StageResult.httpError st j d m →
      requestsOf (selectionTrace s (some fid) env) =
          [Request.fetchAndStore f.merchant "V1P0A1"] ∧
        (handleFlyerSelection s (some fid) env).mealPlan = none ∧
        errorsStoredBy (selectionTrace s (some fid) env) = [fetchStoreErrMsg st j d m] ∧
        processingErrorBannerShown (handleFlyerSelection s (some fid) env) = true) ∧
    (∀ info st j d m, env.stage1 = StageResult.ok info →
      env.stage2 = StageResult.httpError st j d m →
      requestsOf (selectionTrace s (some fid) env) =
          [Request.fetchAndStore f.merchant "V1P0A1",
            Request.extract f.merchant info.image_path] ∧
        (handleFlyerSelection s (some fid) env).mealPlan = none ∧
        errorsStoredBy (selectionTrace s (some fid) env) = [extractErrMsg st j d m] ∧
        processingErrorBannerShown (handleFlyerSelection s (some fid) env) = true) ∧
    (∀ info ack st j d m, env.stage1 = StageResult.ok info →
      env.stage2 = StageResult.ok ack →
      env.stage3 = StageResult.httpError st j d m →
      requestsOf (selectionTrace s (some fid) env) =
          [Request.fetchAndStore f.merchant "V1P0A1",
            Request.extract f.merchant info.image_path,
            Request.generate f.merchant] ∧
        (handleFlyerSelection s (some fid) env).mealPlan = none ∧
        errorsStoredBy (selectionTrace s (some fid) env) = [generateErrMsg st j d m] ∧
        processingErrorBannerShown (handleFlyerSelection s (some fid) env) = true) := by
  rcases env with ⟨s1, s2, s3⟩
  refine ⟨?_, ?_, ?_⟩
  · intro st j d m h1
    dsimp at h1
    subst h1
    rw [handleFlyerSelection, selectionTrace_proceed _ _ _ _ hf hg]
    simp [tryBlockTrace, requestsOf, errorsStoredBy, runEvents, applyEvent,
      processingErrorBannerShown, jsTruthyStr, fetchStoreErrMsg_ne_empty st j d m]
  · intro info st j d m h1 h2
    dsimp at h1 h2
    subst h1; subst h2
    rw [handleFlyerSelection, selectionTrace_proceed _ _ _ _ hf hg]
    simp [tryBlockTrace, requestsOf, errorsStoredBy, runEvents, applyEvent,
      processingErrorBannerShown, jsTruthyStr, extractErrMsg_ne_empty st j d m]
  · intro info ack st j d m h1 h2 h3
    dsimp at h1 h2 h3
    subst h1; subst h2; subst h3
    rw [handleFlyerSelection, selectionTrace_proceed _ _ _ _ hf hg]
    simp [tryBlockTrace, requestsOf, errorsStoredBy, runEvents, applyEvent,
      processingErrorBannerShown, jsTruthyStr, generateErrMsg_ne_empty st j d m]

/-- Witness for C2: stage 2 answers 404 with a parsed `detail` field;
only the first two requests are issued and the stored error is the
`detail` value. -/
theorem C2_non2xx_halts_pipeline_witness :
    idleState.groceryFlyers.find? (fun fl => fl.id == 1) = some flyerA ∧
    (idleState.isProcessing && idleState.selectedFlyerId == some 1) = false ∧
    (requestsOf (selectionTrace idleState (some 1) envFail2) =
        [Request.fetchAndStore "StoreA" "V1P0A1", Request.extract "StoreA" "x.jpg"] ∧
      (handleFlyerSelection idleState (some 1) envFail2).mealPlan = none ∧
      errorsStoredBy (selectionTrace idleState (some 1) envFail2) = ["D2"] ∧
      processingErrorBannerShown (handleFlyerSelection idleState (some 1) envFail2) = true) :=
  ⟨by decide, by decide,
    (C2_non2xx_halts_pipeline idleState 1 flyerA envFail2 (by decide) (by decide)).2.1
      infoA 404 true (some "D2") (some "M2") (by decide) (by decide)⟩

/-- C7: whatever the three stages answered (success, non-2xx or thrown),
after the session completes `isProcessing` is false, and a subsequent
click on any flyer in the list is accepted: it passes the guards and
issues its fetch-and-store request. -/
theorem C7_flag_cleared_next_selection_accepted (s : AppState) (fid : Int) (f : FlippFlyer)
    (env : Env)
    (hf : s.groceryFlyers.find? (fun fl => fl.id == fid) = some f)
    (hg : (s.isProcessing && s.selectedFlyerId == some fid) = false) :
    (handleFlyerSelection s (some fid) env).isProcessing = false ∧
    ∀ fid2 f2 env2,
      (handleFlyerSelection s (some fid) env).groceryFlyers.find?
          (fun fl => fl.id == fid2) = some f2 →
      Request.fetchAndStore f2.merchant "V1P0A1" ∈
        requestsOf (flyerCardClickTrace (handleFlyerSelection s (some fid) env) fid2 env2) := by
  have h1 := handleFlyerSelection_clears_isProcessing s fid f env hf hg
  refine ⟨h1, ?_⟩
  intro fid2 f2 env2 hf2
  have hguard2 : ((handleFlyerSelection s (some fid) env).isProcessing &&
      (handleFlyerSelection s (some fid) env).selectedFlyerId == some fid2) = false := by
    simp [h1]
  have hclick : flyerCardClickTrace (handleFlyerSelection s (some fid) env) fid2 env2 =
      selectionTrace (handleFlyerSelection s (some fid) env) (some fid2) env2 := by
    simp [flyerCardClickTrace, h1]
  rw [hclick]
  exact selection_requests_head _ fid2 f2 env2 hf2 hguard2

/-- Witness for C7: a session that failed at stage 1 clears the flag and
a follow-up click on the other flyer issues its first request. -/
theorem C7_flag_cleared_next_selection_accepted_witness :
    idleState.groceryFlyers.find? (fun fl => fl.id == 1) = some flyerA ∧
    (idleState.isProcessing && idleState.selectedFlyerId == some 1) = false ∧
    (handleFlyerSelection idleState (some 1) envFail1).isProcessing = false ∧
    (handleFlyerSelection idleState (some 1) envFail1).groceryFlyers.find?
        (fun fl => fl.id == 2) = some flyerB ∧
    Request.fetchAndStore flyerB.merchant "V1P0A1" ∈
      requestsOf (flyerCardClickTrace (handleFlyerSelection idleState (some 1) envFail1)
        2 envAllOk) :=
  ⟨by decide, by decide,
    (C7_flag_cleared_next_selection_accepted idleState 1 flyerA envFail1
      (by decide) (by decide)).1,
    by decide,
    (C7_flag_cleared_next_selection_accepted idleState 1 flyerA envFail1
      (by decide) (by decide)).2 2 flyerB envAllOk (by decide)⟩

/-- C8: when all three stages succeed and the returned plan has five
day entries and two shopping-list items, the meal-plan panel is rendered
with exactly five day rows and exactly two shopping-list rows. -/
theorem C8_rendered_rows (s : AppState) (fid : Int) (f : FlippFlyer) (env : Env)
    (info : FetchedFlyerInfo) (ack : String) (plan : MealPlan)
    (hf : s.groceryFlyers.find? (fun fl => fl.id == fid) = some f)
    (hg : (s.isProcessing && s.selectedFlyerId == some fid) = false)
    (h1 : env.stage1 = StageResult.ok info) (h2 : env.stage2 = StageResult.ok ack)
    (h3 : env.stage3 = StageResult.ok plan)
    (hdays : plan.meal_plan.length = 5) (hlist : plan.shopping_list.length = 2) :
    mealPlanPanelShown (handleFlyerSelection s (some fid) env) = true ∧
    (mealPlanDayRows (handleFlyerSelection s (some fid) env)).length = 5 ∧
    (shoppingListRows (handleFlyerSelection s (some fid) env)).length = 2 := by
  rcases env with ⟨s1, s2, s3⟩
  dsimp at h1 h2 h3
  subst h1; subst h2; subst h3
  rw [handleFlyerSelection, selectionTrace_proceed _ _ _ _ hf hg]
  simp [tryBlockTrace, runEvents, applyEvent, mealPlanPanelShown,
    mealPlanDayRows, shoppingListRows, hdays, hlist]

/-- Witness for C8 at a concrete run with a five-day plan and a two-item
shopping list. -/
theorem C8_rendered_rows_witness :
    idleState.groceryFlyers.find? (fun fl => fl.id == 1) = some flyerA ∧
    (idleState.isProcessing && idleState.selectedFlyerId == some 1) = false ∧
    planFive.meal_plan.length = 5 ∧ planFive.shopping_list.length = 2 ∧
    (mealPlanPanelShown (handleFlyerSelection idleState (some 1) envAllOk) = true ∧
      (mealPlanDayRows (handleFlyerSelection idleState (some 1) envAllOk)).length = 5 ∧
      (shoppingListRows (handleFlyerSelection idleState (some 1) envAllOk)).length = 2) :=
  ⟨by decide, by decide, by decide, by decide,
    C8_rendered_rows idleState 1 flyerA envAllOk infoA "ok" planFive
      (by decide) (by decide) (by decide) (by decide) (by decide) (by decide) (by decide)⟩

/-- C9: once the guards pass, the part of the run before the first
network request has already cleared both the processing error and the
meal plan, and the run does issue a network request. -/
theorem C9_reset_before_first_request (s : AppState) (fid : Int) (f : FlippFlyer) (env : Env)
    (hf : s.groceryFlyers.find? (fun fl => fl.id == fid) = some f)
    (hg : (s.isProcessing && s.selectedFlyerId == some fid) = false) :
    (runEvents s ((selectionTrace s (some fid) env).takeWhile
        (fun e => !e.isNetRequest))).processingError = none ∧
    (runEvents s ((selectionTrace s (some fid) env).takeWhile
        (fun e => !e.isNetRequest))).mealPlan = none ∧
    (selectionTrace s (some fid) env).any Event.isNetRequest = true := by
  rw [selectionTrace_proceed _ _ _ _ hf hg]
  simp [tryBlockTrace, runEvents, applyEvent, Event.isNetRequest]

/-- Witness for C9 starting from a state that still holds a stale error
and a stale meal plan. -/
theorem C9_reset_before_first_request_witness :
    ({ idleState with
        processingError := some "old error",
        mealPlan := some planFive } : AppState).groceryFlyers.find?
      (fun fl => fl.id == 2) = some flyerB ∧
    (({ idleState with
        processingError := some "old error",
        mealPlan := some planFive } : AppState).isProcessing &&
      ({ idleState with
        processingError := some "old error",
        mealPlan := some planFive } : AppState).selectedFlyerId == some 2) = false ∧
    ((runEvents { idleState with
          processingError := some "old error", mealPlan := some planFive }
        ((selectionTrace { idleState with
            processingError := some "old error", mealPlan := some planFive }
          (some 2) envAllOk).takeWhile (fun e => !e.isNetRequest))).processingError = none ∧
      (runEvents { idleState with
          processingError := some "old error", mealPlan := some planFive }
        ((selectionTrace { idleState with
            processingError := some "old error", mealPlan := some planFive }
          (some 2) envAllOk).takeWhile (fun e => !e.isNetRequest))).mealPlan = none ∧
      (selectionTrace { idleState with
          processingError := some "old error", mealPlan := some planFive }
        (some 2) envAllOk).any Event.isNetRequest = true) :=
  ⟨by decide, by decide,
    C9_reset_before_first_request
      { idleState with processingError := some "old error", mealPlan := some planFive }
      2 flyerB envAllOk (by decide) (by decide)⟩

/-- Characterization of the catalog loader on a successful response. -/
lemma fetchFlippFlyers_ok (s : AppState) (flyers : List FlippFlyer) :
    fetchFlippFlyers s (CatalogResult.ok flyers) =
      { s with
        groceryFlyers := flyers.filter (fun fl => fl.categories.contains "Groceries"),
        isFetchingFlipp := false,
        flippError :=
          if (flyers.filter (fun fl => fl.categories.contains "Groceries")).length = 0 then
            some "No grocery flyers found for this postal code."
          else none } := by
  unfold fetchFlippFlyers
  dsimp only
  split_ifs with h <;> rfl

/-- C4: a successful catalog response is stored filtered to the flyers
whose categories include "Groceries"; a non-empty filtered list is
displayed as is, and an empty one leaves an error banner and no grid. -/
theorem C4_catalog_filtered (s : AppState) (flyers : List FlippFlyer) :
    (fetchFlippFlyers s (CatalogResult.ok flyers)).groceryFlyers =
        flyers.filter (fun fl => fl.categories.contains "Groceries") ∧
    (flyers.filter (fun fl => fl.categories.contains "Groceries") ≠ [] →
      flyerGridFlyers (fetchFlippFlyers s (CatalogResult.ok flyers)) =
        flyers.filter (fun fl => fl.categories.contains "Groceries")) ∧
    (flyers.filter (fun fl => fl.categories.contains "Groceries") = [] →
      flippErrorBannerShown (fetchFlippFlyers s (CatalogResult.ok flyers)) = true ∧
      flyerGridRendered (fetchFlippFlyers s (CatalogResult.ok flyers)) = false) := by
  rw [fetchFlippFlyers_ok]
  by_cases hlen : (flyers.filter (fun fl => fl.categories.contains "Groceries")).length = 0
  · have hnil : flyers.filter (fun fl => fl.categories.contains "Groceries") = [] :=
      List.length_eq_zero.mp hlen
    refine ⟨rfl, fun h => absurd hnil h, fun _ => ⟨?_, ?_⟩⟩
    · rw [if_pos hlen]
      rfl
    · rw [if_pos hlen]
      rfl
  · have hne : flyers.filter (fun fl => fl.categories.contains "Groceries") ≠ [] := by
      intro h
      exact hlen (by rw [h]; rfl)
    have hempty : (flyers.filter (fun fl => fl.categories.contains "Groceries")).isEmpty = false := by
      cases hq : flyers.filter (fun fl => fl.categories.contains "Groceries") with
      | nil => exact absurd hq hne
      | cons a l => rfl
    refine ⟨rfl, fun _ => ?_, fun h => absurd h hne⟩
    rw [if_neg hlen]
    simp only [flyerGridFlyers, flyerGridRendered, jsTruthyStr]
    rw [if_pos]
    simp [hempty]
    obtain ⟨x, hx⟩ := List.exists_mem_of_ne_nil _ hne
    rw [List.mem_filter] at hx
    exact ⟨x, hx.1, by simpa using hx.2⟩

/-- Witness for C4: a mixed catalog keeps only the grocery-tagged flyer
and displays it; an all-pets catalog stores the empty list, shows the
banner and no grid. -/
theorem C4_catalog_filtered_witness :
    ((fetchFlippFlyers idleState (CatalogResult.ok [flyerA, petFlyer])).groceryFlyers =
        [flyerA] ∧
      flyerGridFlyers (fetchFlippFlyers idleState (CatalogResult.ok [flyerA, petFlyer])) =
        [flyerA]) ∧
    ((fetchFlippFlyers idleState (CatalogResult.ok [petFlyer])).groceryFlyers = [] ∧
      flippErrorBannerShown (fetchFlippFlyers idleState (CatalogResult.ok [petFlyer])) = true ∧
      flyerGridRendered (fetchFlippFlyers idleState (CatalogResult.ok [petFlyer])) = false) :=
  ⟨⟨(C4_catalog_filtered idleState [flyerA, petFlyer]).1,
      (C4_catalog_filtered idleState [flyerA, petFlyer]).2.1 (by decide)⟩,
    ⟨(C4_catalog_filtered idleState [petFlyer]).1,
      (C4_catalog_filtered idleState [petFlyer]).2.2 (by decide)⟩⟩

lemma jsOr_of_truthy (v y : String) (hv : v ≠ "") : jsOr (some v) y = v := by
  simp [jsOr, hv]

lemma jsOr_of_falsy (x : Option String) (y : String) (hx : jsTruthyStr x = false) :
    jsOr x y = y := by
  cases x with
  | none => rfl
  | some a =>
    have ha : a = "" := by simpa [jsTruthyStr] using hx
    simp [jsOr, ha]

/-- Final `processingError` when stage 1 answers non-2xx. -/
lemma processingError_fail1 (s : AppState) (fid : Int) (f : FlippFlyer)
    (st : Nat) (j : Bool) (d m : Option String)
    (s2 : StageResult String) (s3 : StageResult MealPlan)
    (hf : s.groceryFlyers.find? (fun fl => fl.id == fid) = some f)
    (hg : (s.isProcessing && s.selectedFlyerId == some fid) = false) :
    (handleFlyerSelection s (some fid)
        ⟨StageResult.httpError st j d m, s2, s3⟩).processingError =
      some (fetchStoreErrMsg st j d m) := by
  rw [handleFlyerSelection, selectionTrace_proceed _ _ _ _ hf hg]
  simp [tryBlockTrace, runEvents, applyEvent]

/-- Final `processingError` when stage 2 answers non-2xx. -/
lemma processingError_fail2 (s : AppState) (fid : Int) (f : FlippFlyer)
    (info : FetchedFlyerInfo) (st : Nat) (j : Bool) (d m : Option String)
    (s3 : StageResult MealPlan)
    (hf : s.groceryFlyers.find? (fun fl => fl.id == fid) = some f)
    (hg : (s.isProcessing && s.selectedFlyerId == some fid) = false) :
    (handleFlyerSelection s (some fid)
        ⟨StageResult.ok info, StageResult.httpError st j d m, s3⟩).processingError =
      some (extractErrMsg st j d m) := by
  rw [handleFlyerSelection, selectionTrace_proceed _ _ _ _ hf hg]
  simp [tryBlockTrace, runEvents, applyEvent]

/-- Final `processingError` when stage 3 answers non-2xx. -/
lemma processingError_fail3 (s : AppState) (fid : Int) (f : FlippFlyer)
    (info : FetchedFlyerInfo) (ack : String) (st : Nat) (j : Bool) (d m : Option String)
    (hf : s.groceryFlyers.find? (fun fl => fl.id == fid) = some f)
    (hg : (s.isProcessing && s.selectedFlyerId == some fid) = false) :
    (handleFlyerSelection s (some fid)
        ⟨StageResult.ok info, StageResult.ok ack,
          StageResult.httpError st j d m⟩).processingError =
      some (generateErrMsg st j d m) := by
  rw [handleFlyerSelection, selectionTrace_proceed _ _ _ _ hf hg]
  simp [tryBlockTrace, runEvents, applyEvent]

/-- C3 counterexample: stage 3 answers non-2xx with a parsed body whose
`detail` field is "D3" and whose `message` field is "M3"; the claim
prescribes that "D3" be surfaced, but the stored error is "M3" — the
generate stage never consults `detail`. -/
theorem C3_counterexample :
    (handleFlyerSelection idleState (some 1) envFail3).processingError = some "M3" ∧
    ("M3" : String) ≠ "D3" := by
  decide

/-- C3 amended: for the fetch-and-store and extract stages, a non-2xx
response with a parsed body surfaces the first available (present and
non-empty) of `detail`, then `message`, then a generic status-coded
message; for the generate stage `detail` is ignored and the priority is
`message`, then the generic status-coded message. -/
theorem C3_amended_error_priority (s : AppState) (fid : Int) (f : FlippFlyer) (env : Env)
    (hf : s.groceryFlyers.find? (fun fl => fl.id == fid) = some f)
    (hg : (s.isProcessing && s.selectedFlyerId == some fid) = false) :
    (∀ st d m, env.stage1 = StageResult.httpError st true d m →
      (∀ dv, d = some dv → dv ≠ "" →
        (handleFlyerSelection s (some fid) env).processingError = some dv) ∧
      (jsTruthyStr d = false → ∀ mv, m = some mv → mv ≠ "" →
        (handleFlyerSelection s (some fid) env).processingError = some mv) ∧
      (jsTruthyStr d = false → jsTruthyStr m = false →
        (handleFlyerSelection s (some fid) env).processingError =
          some ("Failed to fetch or store flyer. Status: " ++ toString st))) ∧
    (∀ info st d m, env.stage1 = StageResult.ok info →
      env.stage2 = StageResult.httpError st true d m →
      (∀ dv, d = some dv → dv ≠ "" →
        (handleFlyerSelection s (some fid) env).processingError = some dv) ∧
      (jsTruthyStr d = false → ∀ mv, m = some mv → mv ≠ "" →
        (handleFlyerSelection s (some fid) env).processingError = some mv) ∧
      (jsTruthyStr d = false → jsTruthyStr m = false →
        (handleFlyerSelection s (some fid) env).processingError =
          some ("Failed to extract items. Status: " ++ toString st))) ∧
    (∀ info ack st d m, env.stage1 = StageResult.ok info →
      env.stage2 = StageResult.ok ack →
      env.stage3 = StageResult.httpError st true d m →
      (∀ mv, m = some mv → mv ≠ "" →
        (handleFlyerSelection s (some fid) env).processingError = some mv) ∧
      (jsTruthyStr m = false →
        (handleFlyerSelection s (some fid) env).processingError =
          some ("Failed to generate meal plan. Status: " ++ toString st))) := by
  rcases env with ⟨s1, s2, s3⟩
  refine ⟨?_, ?_, ?_⟩
  · intro st d m h1
    dsimp at h1
    subst h1
    have hpe := processingError_fail1 s fid f st true d m s2 s3 hf hg
    have hmsg : fetchStoreErrMsg st true d m =
        jsOr d (jsOr m ("Failed to fetch or store flyer. Status: " ++ toString st)) := by
      unfold fetchStoreErrMsg errorDataFields
      simp
    rw [hmsg] at hpe
    refine ⟨?_, ?_, ?_⟩
    · intro dv hdv hne
      subst hdv
      rw [hpe, jsOr_of_truthy _ _ hne]
    · intro hd mv hmv hne
      subst hmv
      rw [hpe, jsOr_of_falsy _ _ hd, jsOr_of_truthy _ _ hne]
    · intro hd hm
      rw [hpe, jsOr_of_falsy _ _ hd, jsOr_of_falsy _ _ hm]
  · intro info st d m h1 h2
    dsimp at h1 h2
    subst h1; subst h2
    have hpe := processingError_fail2 s fid f info st true d m s3 hf hg
    have hmsg : extractErrMsg st true d m =
        jsOr d (jsOr m ("Failed to extract items. Status: " ++ toString st)) := by
      unfold extractErrMsg errorDataFields
      simp
    rw [hmsg] at hpe
    refine ⟨?_, ?_, ?_⟩
    · intro dv hdv hne
      subst hdv
      rw [hpe, jsOr_of_truthy _ _ hne]
    · intro hd mv hmv hne
      subst hmv
      rw [hpe, jsOr_of_falsy _ _ hd, jsOr_of_truthy _ _ hne]
    · intro hd hm
      rw [hpe, jsOr_of_falsy _ _ hd, jsOr_of_falsy _ _ hm]
  · intro info ack st d m h1 h2 h3
    dsimp at h1 h2 h3
    subst h1; subst h2; subst h3
    have hpe := processingError_fail3 s fid f info ack st true d m hf hg
    have hmsg : generateErrMsg st true d m =
        jsOr m ("Failed to generate meal plan. Status: " ++ toString st) := by
      unfold generateErrMsg errorDataFields
      simp
    rw [hmsg] at hpe
    refine ⟨?_, ?_⟩
    · intro mv hmv hne
      subst hmv
      rw [hpe, jsOr_of_truthy _ _ hne]
    · intro hm
      rw [hpe, jsOr_of_falsy _ _ hm]

/-- Witness for the amended C3: at stage 1 the `detail` field "D1" wins;
at stage 3 the `message` field "M3" wins even though `detail` is "D3". -/
theorem C3_amended_error_priority_witness :
    idleState.groceryFlyers.find? (fun fl => fl.id == 1) = some flyerA ∧
    (idleState.isProcessing && idleState.selectedFlyerId == some 1) = false ∧
    (handleFlyerSelection idleState (some 1) envFail1).processingError = some "D1" ∧
    (handleFlyerSelection idleState (some 1) envFail3).processingError = some "M3" :=
  ⟨by decide, by decide,
    ((C3_amended_error_priority idleState 1 flyerA envFail1 (by decide) (by decide)).1
      500 (some "D1") (some "M1") (by decide)).1 "D1" rfl (by decide),
    (((C3_amended_error_priority idleState 1 flyerA envFail3 (by decide) (by decide)).2.2
      infoA "ok" 500 (some "D3") (some "M3") (by decide) (by decide) (by decide)).1
      "M3" rfl (by decide))⟩

/-- C5 counterexample: with stage 1 answering non-2xx, a selection made
while nothing was in flight reaches a terminal error state after storing
only the starting and fetching/preparing status messages — the
extracting and generating messages never appear, so the run does not
transition through all three stage messages. -/
theorem C5_counterexample :
    messagesOf (selectionTrace idleState (some 1) envFail1) =
        ["Starting flyer processing...", "Fetching and preparing flyer for StoreA..."] ∧
    ¬ ("Flyer ready. Extracting items from StoreA flyer..." ∈
        messagesOf (selectionTrace idleState (some 1) envFail1)) ∧
    processingErrorBannerShown (handleFlyerSelection idleState (some 1) envFail1) = true := by
  decide

/-- `x` immediately followed by `y` somewhere in `es`. -/
def adjacentIn (x y : Event) (es : List Event) : Prop :=
  ∃ A B, es = A ++ x :: y :: B

lemma adjacentIn_here (x y : Event) (B : List Event) : adjacentIn x y (x :: y :: B) :=
  ⟨[], B, rfl⟩

lemma adjacentIn_cons (e : Event) {x y : Event} {es : List Event}
    (h : adjacentIn x y es) : adjacentIn x y (e :: es) := by
  obtain ⟨A, B, rfl⟩ := h
  exact ⟨e :: A, B, rfl⟩

lemma take2_data_append2 (a m b : String) (ha : 2 ≤ a.data.length) :
    ((a ++ m) ++ b).data.take 2 = a.data.take 2 := by
  have h1 : 2 ≤ (a.data ++ m.data).length := by
    rw [List.length_append]
    exact le_trans ha (Nat.le_add_right _ _)
  rw [String.data_append, String.data_append,
    List.take_append_of_le_length h1, List.take_append_of_le_length ha]

/-- Two merchant-parameterized status messages with different constant
prefixes are never equal, whatever the merchant. -/
lemma append2_ne_append2 (a b c d mer : String) (ha : 2 ≤ a.data.length)
    (hc : 2 ≤ c.data.length) (h : a.data.take 2 ≠ c.data.take 2) :
    a ++ mer ++ b ≠ c ++ mer ++ d := by
  intro hq
  apply h
  have h2 : ((a ++ mer) ++ b).data.take 2 = ((c ++ mer) ++ d).data.take 2 := by rw [hq]
  rwa [take2_data_append2 _ _ _ ha, take2_data_append2 _ _ _ hc] at h2

lemma append2_ne_const (a b u mer : String) (ha : 2 ≤ a.data.length)
    (h : a.data.take 2 ≠ u.data.take 2) :
    a ++ mer ++ b ≠ u := by
  intro hq
  apply h
  have h2 : ((a ++ mer) ++ b).data.take 2 = u.data.take 2 := by rw [hq]
  rwa [take2_data_append2 _ _ _ ha] at h2

lemma const_ne_append2 (u a b mer : String) (ha : 2 ≤ a.data.length)
    (h : u.data.take 2 ≠ a.data.take 2) : u ≠ a ++ mer ++ b := by
  intro hq
  apply h
  have h2 : u.data.take 2 = ((a ++ mer) ++ b).data.take 2 := by rw [hq]
  rwa [take2_data_append2 _ _ _ ha] at h2

/- Pairwise distinctness of the status messages, for any merchant. -/

lemma msg2_ne_msg0 (mer : String) :
    "Flyer ready. Extracting items from " ++ mer ++ " flyer..." ≠
      "Starting flyer processing..." :=
  append2_ne_const _ _ _ _ (by decide) (by decide)

lemma msg2_ne_msg1 (mer : String) :
    "Flyer ready. Extracting items from " ++ mer ++ " flyer..." ≠
      "Fetching and preparing flyer for " ++ mer ++ "..." :=
  append2_ne_append2 _ _ _ _ _ (by decide) (by decide) (by decide)

lemma msg3_ne_msg0 (mer : String) :
    "Items extracted. Generating meal plan for " ++ mer ++ "..." ≠
      "Starting flyer processing..." :=
  append2_ne_const _ _ _ _ (by decide) (by decide)

lemma msg3_ne_msg1 (mer : String) :
    "Items extracted. Generating meal plan for " ++ mer ++ "..." ≠
      "Fetching and preparing flyer for " ++ mer ++ "..." :=
  append2_ne_append2 _ _ _ _ _ (by decide) (by decide) (by decide)

lemma msg3_ne_msg2 (mer : String) :
    "Items extracted. Generating meal plan for " ++ mer ++ "..." ≠
      "Flyer ready. Extracting items from " ++ mer ++ " flyer..." :=
  append2_ne_append2 _ _ _ _ _ (by decide) (by decide) (by decide)

lemma done_ne_msg0 : ("Meal plan complete!" : String) ≠ "Starting flyer processing..." := by
  decide

lemma done_ne_msg1 (mer : String) :
    ("Meal plan complete!" : String) ≠
      "Fetching and preparing flyer for " ++ mer ++ "..." :=
  const_ne_append2 _ _ _ _ (by decide) (by decide)

lemma done_ne_msg2 (mer : String) :
    ("Meal plan complete!" : String) ≠
      "Flyer ready. Extracting items from " ++ mer ++ " flyer..." :=
  const_ne_append2 _ _ _ _ (by decide) (by decide)

lemma done_ne_msg3 (mer : String) :
    ("Meal plan complete!" : String) ≠
      "Items extracted. Generating meal plan for " ++ mer ++ "..." :=
  const_ne_append2 _ _ _ _ (by decide) (by decide)

/-- C5 amended: once the guards pass, the stored status messages form in
order a prefix of (starting, fetching/preparing, extracting, generating,
complete); each stage message is stored immediately before that stage's
request is issued; when all three stages succeed all five messages are
stored in order, the three stage messages before the terminal success
message; and when a stage fails, the later stages' messages — and the
terminal success message — are never stored. -/
theorem C5_amended_status_progression (s : AppState) (fid : Int) (f : FlippFlyer) (env : Env)
    (hf : s.groceryFlyers.find? (fun fl => fl.id == fid) = some f)
    (hg : (s.isProcessing && s.selectedFlyerId == some fid) = false) :
    (∃ t, messagesOf (selectionTrace s (some fid) env) ++ t =
      ["Starting flyer processing...",
       "Fetching and preparing flyer for " ++ f.merchant ++ "...",
       "Flyer ready. Extracting items from " ++ f.merchant ++ " flyer...",
       "Items extracted. Generating meal plan for " ++ f.merchant ++ "...",
       "Meal plan complete!"]) ∧
    adjacentIn
      (Event.setProcessingMessage
        (some ("Fetching and preparing flyer for " ++ f.merchant ++ "...")))
      (Event.netRequest (Request.fetchAndStore f.merchant "V1P0A1"))
      (selectionTrace s (some fid) env) ∧
    (∀ info, env.stage1 = StageResult.ok info →
      adjacentIn
        (Event.setProcessingMessage
          (some ("Flyer ready. Extracting items from " ++ f.merchant ++ " flyer...")))
        (Event.netRequest (Request.extract f.merchant info.image_path))
        (selectionTrace s (some fid) env)) ∧
    (∀ info ack, env.stage1 = StageResult.ok info → env.stage2 = StageResult.ok ack →
      adjacentIn
        (Event.setProcessingMessage
          (some ("Items extracted. Generating meal plan for " ++ f.merchant ++ "...")))
        (Event.netRequest (Request.generate f.merchant))
        (selectionTrace s (some fid) env)) ∧
    (∀ info ack plan, env.stage1 = StageResult.ok info →
      env.stage2 = StageResult.ok ack → env.stage3 = StageResult.ok plan →
      messagesOf (selectionTrace s (some fid) env) =
        ["Starting flyer processing...",
         "Fetching and preparing flyer for " ++ f.merchant ++ "...",
         "Flyer ready. Extracting items from " ++ f.merchant ++ " flyer...",
         "Items extracted. Generating meal plan for " ++ f.merchant ++ "...",
         "Meal plan complete!"]) ∧
    ((∀ info, env.stage1 ≠ StageResult.ok info) →
      ¬ ("Flyer ready. Extracting items from " ++ f.merchant ++ " flyer..." ∈
          messagesOf (selectionTrace s (some fid) env)) ∧
      ¬ ("Items extracted. Generating meal plan for " ++ f.merchant ++ "..." ∈
          messagesOf (selectionTrace s (some fid) env)) ∧
      ¬ ("Meal plan complete!" ∈ messagesOf (selectionTrace s (some fid) env))) ∧
    (∀ info, env.stage1 = StageResult.ok info →
      (∀ ack, env.stage2 ≠ StageResult.ok ack) →
      ¬ ("Items extracted. Generating meal plan for " ++ f.merchant ++ "..." ∈
          messagesOf (selectionTrace s (some fid) env)) ∧
      ¬ ("Meal plan complete!" ∈ messagesOf (selectionTrace s (some fid) env))) ∧
    (∀ info ack, env.stage1 = StageResult.ok info → env.stage2 = StageResult.ok ack →
      (∀ plan, env.stage3 ≠ StageResult.ok plan) →
      ¬ ("Meal plan complete!" ∈ messagesOf (selectionTrace s (some fid) env))) := by
  rcases env with ⟨s1, s2, s3⟩
  rw [selectionTrace_proceed _ _ _ _ hf hg]
  refine ⟨?_, ?_, ?_, ?_, ?_, ?_, ?_, ?_⟩
  · cases s1 with
    | httpError st j d m =>
      exact ⟨["Flyer ready. Extracting items from " ++ f.merchant ++ " flyer...",
        "Items extracted. Generating meal plan for " ++ f.merchant ++ "...",
        "Meal plan complete!"], by simp [tryBlockTrace, messagesOf]⟩
    | thrown e =>
      exact ⟨["Flyer ready. Extracting items from " ++ f.merchant ++ " flyer...",
        "Items extracted. Generating meal plan for " ++ f.merchant ++ "...",
        "Meal plan complete!"], by simp [tryBlockTrace, messagesOf]⟩
    | ok info =>
      cases s2 with
      | httpError st j d m =>
        exact ⟨["Items extracted. Generating meal plan for " ++ f.merchant ++ "...",
          "Meal plan complete!"], by simp [tryBlockTrace, messagesOf]⟩
      | thrown e =>
        exact ⟨["Items extracted. Generating meal plan for " ++ f.merchant ++ "...",
          "Meal plan complete!"], by simp [tryBlockTrace, messagesOf]⟩
      | ok ack =>
        cases s3 with
        | httpError st j d m =>
          exact ⟨["Meal plan complete!"], by simp [tryBlockTrace, messagesOf]⟩
        | thrown e =>
          exact ⟨["Meal plan complete!"], by simp [tryBlockTrace, messagesOf]⟩
        | ok plan => exact ⟨[], by simp [tryBlockTrace, messagesOf]⟩
  · simp only [tryBlockTrace, List.cons_append]
    repeat
      first
        | exact adjacentIn_here _ _ _
        | apply adjacentIn_cons
  · intro info h1
    dsimp at h1
    subst h1
    simp only [tryBlockTrace, List.cons_append]
    repeat
      first
        | exact adjacentIn_here _ _ _
        | apply adjacentIn_cons
  · intro info ack h1 h2
    dsimp at h1 h2
    subst h1; subst h2
    simp only [tryBlockTrace, List.cons_append]
    repeat
      first
        | exact adjacentIn_here _ _ _
        | apply adjacentIn_cons
  · intro info ack plan h1 h2 h3
    dsimp at h1 h2 h3
    subst h1; subst h2; subst h3
    simp [tryBlockTrace, messagesOf]
  · intro hno
    cases s1 with
    | ok info => exact absurd rfl (hno info)
    | httpError st j d m =>
      simp [tryBlockTrace, messagesOf, msg2_ne_msg0 f.merchant, msg2_ne_msg1 f.merchant,
        msg3_ne_msg0 f.merchant, msg3_ne_msg1 f.merchant, done_ne_msg0,
        done_ne_msg1 f.merchant]
    | thrown e =>
      simp [tryBlockTrace, messagesOf, msg2_ne_msg0 f.merchant, msg2_ne_msg1 f.merchant,
        msg3_ne_msg0 f.merchant, msg3_ne_msg1 f.merchant, done_ne_msg0,
        done_ne_msg1 f.merchant]
  · intro info h1 hno2
    dsimp at h1
    subst h1
    cases s2 with
    | ok ack => exact absurd rfl (hno2 ack)
    | httpError st j d m =>
      simp [tryBlockTrace, messagesOf, msg3_ne_msg0 f.merchant, msg3_ne_msg1 f.merchant,
        msg3_ne_msg2 f.merchant, done_ne_msg0, done_ne_msg1 f.merchant,
        done_ne_msg2 f.merchant]
    | thrown e =>
      simp [tryBlockTrace, messagesOf, msg3_ne_msg0 f.merchant, msg3_ne_msg1 f.merchant,
        msg3_ne_msg2 f.merchant, done_ne_msg0, done_ne_msg1 f.merchant,
        done_ne_msg2 f.merchant]
  · intro info ack h1 h2 hno3
    dsimp at h1 h2
    subst h1; subst h2
    cases s3 with
    | ok plan => exact absurd rfl (hno3 plan)
    | httpError st j d m =>
      simp [tryBlockTrace, messagesOf, done_ne_msg0, done_ne_msg1 f.merchant,
        done_ne_msg2 f.merchant, done_ne_msg3 f.merchant]
    | thrown e =>
      simp [tryBlockTrace, messagesOf, done_ne_msg0, done_ne_msg1 f.merchant,
        done_ne_msg2 f.merchant, done_ne_msg3 f.merchant]

/-- Witness for the amended C5: an all-success run stores all five
status messages in order with each stage message immediately before its
request, and a run failing at stage 1 never stores the extracting
message. -/
theorem C5_amended_status_progression_witness :
    idleState.groceryFlyers.find? (fun fl => fl.id == 1) = some flyerA ∧
    (idleState.isProcessing && idleState.selectedFlyerId == some 1) = false ∧
    messagesOf (selectionTrace idleState (some 1) envAllOk) =
      ["Starting flyer processing...",
       "Fetching and preparing flyer for StoreA...",
       "Flyer ready. Extracting items from StoreA flyer...",
       "Items extracted. Generating meal plan for StoreA...",
       "Meal plan complete!"] ∧
    adjacentIn
      (Event.setProcessingMessage (some "Fetching and preparing flyer for StoreA..."))
      (Event.netRequest (Request.fetchAndStore "StoreA" "V1P0A1"))
      (selectionTrace idleState (some 1) envAllOk) ∧
    ¬ ("Flyer ready. Extracting items from StoreA flyer..." ∈
        messagesOf (selectionTrace idleState (some 1) envFail1)) :=
  ⟨by decide, by decide,
    (C5_amended_status_progression idleState 1 flyerA envAllOk
      (by decide) (by decide)).2.2.2.2.1 infoA "ok" planFive (by decide) (by decide) (by decide),
    (C5_amended_status_progression idleState 1 flyerA envAllOk
      (by decide) (by decide)).2.1,
    ((C5_amended_status_progression idleState 1 flyerA envFail1
      (by decide) (by decide)).2.2.2.2.2.1
      (by intro info h; simp [envFail1, envAllOk] at h)).1⟩
